import Mathlib

/-!
Verification of `dialogUI/lib/background.c` (startdde): a GTK widget-compositing
helper that paints an optional background surface plus a container's visible
child windows, with adjustable alpha.

Shallow embedding: each C function becomes a pure Lean function returning the
list of external effects it performs (an `Event` trace) together with the
updated `BackgroundInfo` state.  External collaborators (the X geometry query
`XGetGeometry` behind `gdk_error_trap_push/pop`, and the image decoder
`gdk_pixbuf_new_from_file`) are passed in as oracle functions, and fresh
surface identities are supplied by the caller so resource usage can be traced.
-/

namespace Background

/-- A child widget, as seen through `gtk_container_get_children` /
`gtk_widget_get_visible` / `gtk_widget_get_window`: its window handle and
visibility flag. -/
structure Child where
  window : Nat
  visible : Bool
deriving DecidableEq

/-- A widget: its window handle (`gtk_widget_get_window`) and the list of its
children in the order `gtk_container_get_children` returns them. -/
structure Widget where
  window : Nat
  children : List Child
deriving DecidableEq

/-- What backs a cairo surface in this file: either
`cairo_xlib_surface_create(dpy, drawable, visual, width, height)` or
`gdk_cairo_surface_create_from_pixbuf(pb, scale, window)`. -/
inductive SurfaceSrc where
  | xlib (drawable : Nat) (width height : Nat)
  | fromPixbuf (pb : Nat) (scale : Nat) (window : Nat)
deriving DecidableEq

/-- A cairo surface: a fresh identity `sid` (used to trace
create/destroy pairing) and its backing source. -/
structure Surface where
  sid : Nat
  src : SurfaceSrc
deriving DecidableEq

/-- A decoded `GdkPixbuf`, identified by `pid`. -/
structure Pixbuf where
  pid : Nat
deriving DecidableEq

/-- External effects the C code performs, in order. -/
inductive Event where
  | message (msg : String)
  | warning (msg : String)
  | lock
  | unlock
  | setSourceSurface (s : Surface) (x y : Int)
  | paintWithAlpha (a : ℚ)
  | setSourceWindow (w : Nat) (x y : Int)
  | paint
  | surfaceCreate (sid : Nat)
  | surfaceDestroy (sid : Nat)
  | pixbufUnref (pb : Nat)
  | invalidate (win : Nat)
  | mutexInit
  | mutexClear
  | free
  | realize (win : Nat)
  | setComposited (win : Nat)
  | signalConnectDraw (win : Nat)
  | setBackgroundRGBA (win : Nat) (r g b a : ℚ)
deriving DecidableEq

/-- The `BackgroundInfo` struct: optional owned background surface `bg`,
alpha level `alpha` (a C `double`; only stored and passed through, modelled
as ℚ), and the `container` back-reference used for invalidation. -/
structure BackgroundInfo where
  bg : Option Surface
  alpha : ℚ
  container : Widget
deriving DecidableEq

/-- The zero value a `g_new0`-allocated widget pointer field denotes:
`create_background_info` never assigns `info->container`, so the field keeps
its zero-initialised value. -/
def nullWidget : Widget := ⟨0, []⟩

/-- The child-painting loop of `background_info_draw_callback`:
for each child in list order, if visible,
`gdk_cairo_set_source_window(cr, window, 0, 0); cairo_paint(cr)`. -/
def drawChildren : List Child → List Event
  | [] => []
  | c :: rest =>
      (if c.visible then
        [Event.setSourceWindow c.window 0 0, Event.paint]
      else []) ++ drawChildren rest

/-- `background_info_draw_callback(w, cr, info)`: if `info->bg` is non-null,
lock, `cairo_set_source_surface(cr, bg, 0, 0)`,
`cairo_paint_with_alpha(cr, alpha)`, unlock; then paint every visible child
of `w` in child-list order; return TRUE.  The result is the event trace, the
(unchanged) state, and the `gboolean` return value. -/
def background_info_draw_callback (w : Widget) (info : BackgroundInfo) :
    List Event × BackgroundInfo × Bool :=
  ((match info.bg with
    | some s =>
        [Event.lock, Event.setSourceSurface s 0 0,
         Event.paintWithAlpha info.alpha, Event.unlock]
    | none => []) ++ drawChildren w.children,
   info, true)

/-- `background_info_set_background_by_drawable(info, drawable)`.
`geom` is the oracle for `XGetGeometry` under the GDK error trap: `none`
means `gdk_error_trap_pop()` returned nonzero, `some (w, h)` a successful
query.  `freshSid` is the identity `cairo_xlib_surface_create` would hand
out for the new surface. -/
def background_info_set_background_by_drawable
    (geom : Nat → Option (Nat × Nat)) (freshSid : Nat)
    (info : BackgroundInfo) (drawable : Nat) :
    List Event × BackgroundInfo :=
  match geom drawable with
  | none =>
      ([Event.warning
          ("set_background_by_drawable invalid drawable " ++
            toString drawable ++ " \n")], info)
  | some (width, height) =>
      let newS : Surface := ⟨freshSid, SurfaceSrc.xlib drawable width height⟩
      ([Event.lock] ++
        (match info.bg with
         | some s => [Event.surfaceDestroy s.sid]
         | none => []) ++
        [Event.surfaceCreate freshSid, Event.unlock,
         Event.invalidate info.container.window],
       { info with bg := some newS })

/-- `background_info_set_background_by_file(info, file)`.
`decode` is the oracle for `gdk_pixbuf_new_from_file`: `Except.error msg`
means the call set `error` (with `error->message = msg`), `Except.ok pb` a
successful decode.  `freshSid` is the identity
`gdk_cairo_surface_create_from_pixbuf` would hand out. -/
def background_info_set_background_by_file
    (decode : String → Except String Pixbuf) (freshSid : Nat)
    (info : BackgroundInfo) (file : String) :
    List Event × BackgroundInfo :=
  let msgEv := Event.message ("background_info_set_background_by_file:" ++ file)
  match decode file with
  | Except.error msg =>
      ([msgEv, Event.warning ("set_background_by_file failed: " ++ msg ++ "\n")],
       info)
  | Except.ok pb =>
      let newS : Surface :=
        ⟨freshSid, SurfaceSrc.fromPixbuf pb.pid 1 info.container.window⟩
      ([msgEv, Event.lock] ++
        (match info.bg with
         | some s => [Event.surfaceDestroy s.sid]
         | none => []) ++
        [Event.surfaceCreate freshSid, Event.unlock,
         Event.pixbufUnref pb.pid,
         Event.invalidate info.container.window],
       { info with bg := some newS })

/-- `background_info_change_alpha(info, alpha)`: store the alpha and
invalidate the container's window. -/
def background_info_change_alpha (info : BackgroundInfo) (alpha : ℚ) :
    List Event × BackgroundInfo :=
  ([Event.invalidate info.container.window], { info with alpha := alpha })

/-- `background_info_clear(info)`: destroy the surface if present, clear the
mutex, free the struct. -/
def background_info_clear (info : BackgroundInfo) : List Event :=
  (match info.bg with
   | some s => [Event.surfaceDestroy s.sid]
   | none => []) ++ [Event.mutexClear, Event.free]

/-- `create_background_info(container, child)`: `g_new0` a struct (all fields
zeroed; the `container` field is never assigned afterwards), init the mutex,
set `alpha = 1`, realize the child, mark its window composited, connect the
draw callback on the container, realize the container, and set the
container's window background to transparent. -/
def create_background_info (container child : Widget) :
    List Event × BackgroundInfo :=
  ([Event.message "create_background_info", Event.mutexInit,
    Event.realize child.window, Event.setComposited child.window,
    Event.signalConnectDraw container.window,
    Event.realize container.window,
    Event.setBackgroundRGBA container.window 0 0 0 0],
   { bg := none, alpha := 1, container := nullWidget })

/-- Recognises an invalidation request event. -/
def isInvalidate : Event → Bool
  | Event.invalidate _ => true
  | _ => false

/-- Recognises a surface-destroy event. -/
def isSurfaceDestroy : Event → Bool
  | Event.surfaceDestroy _ => true
  | _ => false

/-- Recognises a surface-create event. -/
def isSurfaceCreate : Event → Bool
  | Event.surfaceCreate _ => true
  | _ => false

/-- Recognises an alpha-blended paint. -/
def isPaintWithAlpha : Event → Bool
  | Event.paintWithAlpha _ => true
  | _ => false

/-- Events that only draw into the supplied cairo context (or take/release
the lock around such drawing): everything the redraw callback is allowed to
do. -/
def isDrawEvent : Event → Bool
  | Event.lock => true
  | Event.unlock => true
  | Event.setSourceSurface _ _ _ => true
  | Event.paintWithAlpha _ => true
  | Event.setSourceWindow _ _ _ => true
  | Event.paint => true
  | _ => false

/-- Sample concrete data for witnesses. -/
def surfA : Surface := ⟨3, SurfaceSrc.xlib 11 40 50⟩

/-- A sample instance with a background surface installed. -/
def infoA : BackgroundInfo :=
  ⟨some surfA, 1 / 2, ⟨9, [⟨21, true⟩, ⟨22, false⟩]⟩⟩

/-- A sample freshly-created-looking instance with no surface. -/
def infoB : BackgroundInfo := ⟨none, 1, ⟨9, []⟩⟩

/-- A sample container widget with one visible and one hidden child. -/
def widgA : Widget := ⟨9, [⟨21, true⟩, ⟨22, false⟩, ⟨23, true⟩]⟩

/-- The child loop paints exactly the visible children, in list order,
each via set-source-window then a plain paint. -/
theorem drawChildren_eq (cs : List Child) :
    drawChildren cs =
      (cs.filter (fun c => c.visible)).flatMap
        (fun c => [Event.setSourceWindow c.window 0 0, Event.paint]) := by
  induction cs with
  | nil => rfl
  | cons c rest ih =>
      by_cases h : c.visible <;>
        simp [drawChildren, List.filter_cons, h, ih]

/-- C2: one redraw invocation paints the surface (when non-null) at origin
with alpha `alphaLevel` under the lock, then paints every visible child of
the container at origin in child-list order (invisible children skipped),
and returns TRUE. -/
theorem draw_callback_spec (w : Widget) (info : BackgroundInfo) :
    background_info_draw_callback w info =
      ((match info.bg with
        | some s =>
            [Event.lock, Event.setSourceSurface s 0 0,
             Event.paintWithAlpha info.alpha, Event.unlock]
        | none => []) ++
        (w.children.filter (fun c => c.visible)).flatMap
          (fun c => [Event.setSourceWindow c.window 0 0, Event.paint]),
       info, true) := by
  simp [background_info_draw_callback, drawChildren_eq]

/-- The child loop only emits drawing events. -/
theorem drawChildren_all_draw (cs : List Child) :
    (drawChildren cs).all isDrawEvent = true := by
  induction cs with
  | nil => rfl
  | cons c rest ih =>
      by_cases h : c.visible <;> simp_all [drawChildren, isDrawEvent]

/-- C9: the redraw callback never mutates the instance (same `bg` and
`alpha` after the call), and every event it emits only draws into the
provided context (or locks/unlocks around such drawing). -/
theorem draw_callback_pure (w : Widget) (info : BackgroundInfo) :
    (background_info_draw_callback w info).2.1 = info ∧
    ((background_info_draw_callback w info).1).all isDrawEvent = true := by
  refine ⟨rfl, ?_⟩
  rcases hbg : info.bg with _ | s <;>
    simp [background_info_draw_callback, hbg, isDrawEvent, drawChildren_all_draw]

/-- The child loop never paints with alpha. -/
theorem drawChildren_no_alpha (cs : List Child) :
    (drawChildren cs).countP isPaintWithAlpha = 0 := by
  induction cs with
  | nil => rfl
  | cons c rest ih =>
      by_cases h : c.visible <;>
        simp [drawChildren, h, List.countP_append, ih, List.countP_cons,
          isPaintWithAlpha]

/-- The child loop emits one plain paint per visible child. -/
theorem drawChildren_paint_count (cs : List Child) :
    (drawChildren cs).count Event.paint =
      (cs.filter (fun c => c.visible)).length := by
  induction cs with
  | nil => rfl
  | cons c rest ih =>
      by_cases h : c.visible <;>
        simp [drawChildren, h, List.filter_cons, List.count_append, ih,
          List.count_cons]

/-- C10: in a redraw, alpha is applied exactly once when a background
surface exists and never otherwise — children are painted with a plain
paint (full opacity), one per visible child, whatever `alphaLevel` is. -/
theorem draw_alpha_only_background (w : Widget) (info : BackgroundInfo) :
    ((background_info_draw_callback w info).1.countP isPaintWithAlpha =
      if info.bg.isSome then 1 else 0) ∧
    ((background_info_draw_callback w info).1.count Event.paint =
      (w.children.filter (fun c => c.visible)).length) := by
  constructor
  · rcases hbg : info.bg with _ | s <;>
      simp [background_info_draw_callback, hbg, List.countP_append,
        drawChildren_no_alpha, List.countP_cons, isPaintWithAlpha]
  · rcases hbg : info.bg with _ | s <;>
      simp [background_info_draw_callback, hbg, List.count_append,
        drawChildren_paint_count, List.count_cons]

/-- C1: when the geometry query fails (invalid drawable),
`set_background_by_drawable` emits exactly one warning, leaves the instance
unchanged, and schedules no invalidation. -/
theorem setByDrawable_invalid_unchanged
    (geom : Nat → Option (Nat × Nat)) (sid : Nat)
    (info : BackgroundInfo) (d : Nat) (h : geom d = none) :
    (background_info_set_background_by_drawable geom sid info d).2 = info ∧
    (background_info_set_background_by_drawable geom sid info d).1 =
      [Event.warning
        ("set_background_by_drawable invalid drawable " ++ toString d ++ " \n")] ∧
    ((background_info_set_background_by_drawable geom sid info d).1.countP
      isInvalidate = 0) := by
  simp [background_info_set_background_by_drawable, h, List.countP_cons,
    isInvalidate]

/-- Witness for C1: a concrete failing geometry query on a concrete
instance. -/
theorem setByDrawable_invalid_unchanged_witness :
    (background_info_set_background_by_drawable (fun _ => none) 7 infoA 5).2 =
      infoA ∧
    (background_info_set_background_by_drawable (fun _ => none) 7 infoA 5).1 =
      [Event.warning
        ("set_background_by_drawable invalid drawable " ++ toString 5 ++ " \n")] ∧
    ((background_info_set_background_by_drawable (fun _ => none) 7 infoA 5).1.countP
      isInvalidate = 0) :=
  setByDrawable_invalid_unchanged (fun _ => none) 7 infoA 5 rfl

/-- C3: when the geometry query succeeds with `(width, height)`,
`set_background_by_drawable` locks, destroys the previous surface (if any),
installs a surface backed by the drawable at exactly the queried size,
unlocks, and then invalidates the container's window. -/
theorem setByDrawable_valid_spec
    (geom : Nat → Option (Nat × Nat)) (sid : Nat)
    (info : BackgroundInfo) (d width height : Nat)
    (h : geom d = some (width, height)) :
    background_info_set_background_by_drawable geom sid info d =
      ([Event.lock] ++
        (match info.bg with
         | some s => [Event.surfaceDestroy s.sid]
         | none => []) ++
        [Event.surfaceCreate sid, Event.unlock,
         Event.invalidate info.container.window],
       { info with bg := some ⟨sid, SurfaceSrc.xlib d width height⟩ }) := by
  simp [background_info_set_background_by_drawable, h]

/-- Witness for C3: a concrete successful geometry query replacing an
existing surface. -/
theorem setByDrawable_valid_spec_witness :
    background_info_set_background_by_drawable
        (fun _ => some (100, 60)) 7 infoA 5 =
      ([Event.lock] ++
        (match infoA.bg with
         | some s => [Event.surfaceDestroy s.sid]
         | none => []) ++
        [Event.surfaceCreate 7, Event.unlock,
         Event.invalidate infoA.container.window],
       { infoA with bg := some ⟨7, SurfaceSrc.xlib 5 100 60⟩ }) :=
  setByDrawable_valid_spec (fun _ => some (100, 60)) 7 infoA 5 100 60 rfl

/-- C4: when image decoding fails, `set_background_by_file` logs a warning
carrying the decoder's error message, returns the instance unchanged,
schedules no invalidation, and (by its very type) returns no error value. -/
theorem setByFile_decode_fail
    (decode : String → Except String Pixbuf) (sid : Nat)
    (info : BackgroundInfo) (file msg : String)
    (h : decode file = Except.error msg) :
    background_info_set_background_by_file decode sid info file =
      ([Event.message ("background_info_set_background_by_file:" ++ file),
        Event.warning ("set_background_by_file failed: " ++ msg ++ "\n")],
       info) ∧
    ((background_info_set_background_by_file decode sid info file).1.countP
      isInvalidate = 0) := by
  simp [background_info_set_background_by_file, h, List.countP_cons,
    isInvalidate]

/-- Witness for C4: a concrete failing decode on a concrete instance. -/
theorem setByFile_decode_fail_witness :
    background_info_set_background_by_file
        (fun _ => Except.error "No such file") 7 infoA "bad.png" =
      ([Event.message ("background_info_set_background_by_file:" ++ "bad.png"),
        Event.warning ("set_background_by_file failed: " ++ "No such file" ++ "\n")],
       infoA) ∧
    ((background_info_set_background_by_file
        (fun _ => Except.error "No such file") 7 infoA "bad.png").1.countP
      isInvalidate = 0) :=
  setByFile_decode_fail (fun _ => Except.error "No such file") 7 infoA
    "bad.png" "No such file" rfl

/-- C5: when decoding succeeds, `set_background_by_file` destroys the
previous surface (if any) under the lock before assigning the new one,
assigns the new surface, releases the pixbuf intermediate, invalidates the
container's window, and afterwards the surface is non-null; exactly one
surface is destroyed when one was present and none otherwise. -/
theorem setByFile_decode_ok_spec
    (decode : String → Except String Pixbuf) (sid : Nat)
    (info : BackgroundInfo) (file : String) (pb : Pixbuf)
    (h : decode file = Except.ok pb) :
    background_info_set_background_by_file decode sid info file =
      ([Event.message ("background_info_set_background_by_file:" ++ file),
        Event.lock] ++
        (match info.bg with
         | some s => [Event.surfaceDestroy s.sid]
         | none => []) ++
        [Event.surfaceCreate sid, Event.unlock,
         Event.pixbufUnref pb.pid,
         Event.invalidate info.container.window],
       { info with
           bg := some ⟨sid, SurfaceSrc.fromPixbuf pb.pid 1 info.container.window⟩ }) ∧
    (background_info_set_background_by_file decode sid info file).2.bg ≠ none ∧
    ((background_info_set_background_by_file decode sid info file).1.countP
        isSurfaceDestroy = if info.bg.isSome then 1 else 0) := by
  refine ⟨?_, ?_, ?_⟩ <;>
    rcases hbg : info.bg with _ | s <;>
      simp [background_info_set_background_by_file, h, hbg,
        List.countP_append, List.countP_cons, isSurfaceDestroy]

/-- Witness for C5: a concrete successful decode replacing an existing
surface. -/
theorem setByFile_decode_ok_spec_witness :
    background_info_set_background_by_file
        (fun _ => Except.ok ⟨13⟩) 7 infoA "bg.png" =
      ([Event.message ("background_info_set_background_by_file:" ++ "bg.png"),
        Event.lock] ++
        (match infoA.bg with
         | some s => [Event.surfaceDestroy s.sid]
         | none => []) ++
        [Event.surfaceCreate 7, Event.unlock,
         Event.pixbufUnref (13 : Nat),
         Event.invalidate infoA.container.window],
       { infoA with
           bg := some ⟨7, SurfaceSrc.fromPixbuf 13 1 infoA.container.window⟩ }) ∧
    (background_info_set_background_by_file
        (fun _ => Except.ok ⟨13⟩) 7 infoA "bg.png").2.bg ≠ none ∧
    ((background_info_set_background_by_file
        (fun _ => Except.ok ⟨13⟩) 7 infoA "bg.png").1.countP
        isSurfaceDestroy = if infoA.bg.isSome then 1 else 0) :=
  setByFile_decode_ok_spec (fun _ => Except.ok ⟨13⟩) 7 infoA "bg.png" ⟨13⟩ rfl

/-- C7: `create_background_info` returns an instance with `alpha = 1` and no
surface. -/
theorem create_fresh (container child : Widget) :
    (create_background_info container child).2.alpha = 1 ∧
    (create_background_info container child).2.bg = none := by
  simp [create_background_info, nullWidget]

/-- C8: setting the same alpha twice yields the same instance state as
once, and the next redraw produces the same output (same trace, same state,
same return value). -/
theorem changeAlpha_idempotent (info : BackgroundInfo) (a : ℚ) (w : Widget) :
    (background_info_change_alpha
        (background_info_change_alpha info a).2 a).2 =
      (background_info_change_alpha info a).2 ∧
    background_info_draw_callback w
        (background_info_change_alpha
          (background_info_change_alpha info a).2 a).2 =
      background_info_draw_callback w
        (background_info_change_alpha info a).2 := by
  simp [background_info_change_alpha]

/-- The full event trace of the sequence
`create(container, child); set_background_by_file(path); clear`. -/
def roundTripTrace (container child : Widget)
    (decode : String → Except String Pixbuf) (sid : Nat) (path : String) :
    List Event :=
  let r1 := create_background_info container child
  let r2 := background_info_set_background_by_file decode sid r1.2 path
  r1.1 ++ r2.1 ++ background_info_clear r2.2

/-- C6: create → set-background-from-file (decodable) → clear creates
exactly one surface and destroys exactly one, and it is the same surface:
no double-free, no leak. -/
theorem roundTrip_one_release (container child : Widget)
    (decode : String → Except String Pixbuf) (sid : Nat) (path : String)
    (pb : Pixbuf) (h : decode path = Except.ok pb) :
    (roundTripTrace container child decode sid path).countP isSurfaceCreate = 1 ∧
    (roundTripTrace container child decode sid path).countP isSurfaceDestroy = 1 ∧
    (roundTripTrace container child decode sid path).count
      (Event.surfaceCreate sid) = 1 ∧
    (roundTripTrace container child decode sid path).count
      (Event.surfaceDestroy sid) = 1 := by
  refine ⟨?_, ?_, ?_, ?_⟩ <;>
    simp [roundTripTrace, create_background_info,
      background_info_set_background_by_file, background_info_clear, h,
      List.countP_append, List.countP_cons, List.count_append, List.count_cons,
      isSurfaceCreate, isSurfaceDestroy]

/-- Witness for C6: a concrete round trip with a decodable file. -/
theorem roundTrip_one_release_witness :
    (roundTripTrace widgA ⟨21, []⟩ (fun _ => Except.ok ⟨13⟩) 7
        "bg.png").countP isSurfaceCreate = 1 ∧
    (roundTripTrace widgA ⟨21, []⟩ (fun _ => Except.ok ⟨13⟩) 7
        "bg.png").countP isSurfaceDestroy = 1 ∧
    (roundTripTrace widgA ⟨21, []⟩ (fun _ => Except.ok ⟨13⟩) 7
        "bg.png").count (Event.surfaceCreate 7) = 1 ∧
    (roundTripTrace widgA ⟨21, []⟩ (fun _ => Except.ok ⟨13⟩) 7
        "bg.png").count (Event.surfaceDestroy 7) = 1 :=
  roundTrip_one_release widgA ⟨21, []⟩ (fun _ => Except.ok ⟨13⟩) 7 "bg.png"
    ⟨13⟩ rfl

end Background
